import Mathlib

/-!
Shallow embedding of `src/payment/strategies/bolt/bolt-payment-strategy.ts`
and `src/shipping/internal-shipping-addresses.mock.ts` from the checkout SDK.

JavaScript-visible behaviour is modelled explicitly:
* machine numbers produced by the unary `+` operator on strings are modelled
  by `JsNum` (NaN / infinities / finite rationals);
* string truthiness (`!s` is true exactly for the empty string) by `jsTruthyString`;
* optional values (`undefined`) by `Option`;
* exceptions by error components of outcome records, which also carry the
  (possibly mutated) instance state, since a JavaScript `throw` does not roll
  back assignments to `this` made before it;
* the external collaborators (script loader, store dispatch, Bolt SDK
  callbacks) by explicit environment records and event traces, so that
  "fails before any order submission" is the statement that the trace of
  dispatched actions is empty.
-/

namespace CheckoutSdk

/-- A JavaScript number as observed by this code: `NaN`, a signed infinity, or
a finite value (modelled as a rational; the card fields handled here never
exercise double rounding). -/
inductive JsNum
  | nan
  | inf (positive : Bool)
  | finite (val : ℚ)
deriving DecidableEq, Repr

/-- `isNaN` on a `JsNum`. -/
def jsIsNaN : JsNum → Bool
  | .nan => true
  | _ => false

/-- Value of a digit character in the given base (supports bases up to 16),
`none` when the character is not a digit of that base. -/
def digitVal? (base : Nat) (c : Char) : Option Nat :=
  let v : Option Nat :=
    if c.isDigit then some (c.toNat - 48)
    else if 'a' ≤ c ∧ c ≤ 'f' then some (c.toNat - 87)
    else if 'A' ≤ c ∧ c ≤ 'F' then some (c.toNat - 55)
    else none
  v.bind fun d => if d < base then some d else none

/-- Value of a non-empty digit string in the given base, `none` if empty or if
any character is not a digit of that base. -/
def radixVal? (base : Nat) (cs : List Char) : Option Nat :=
  if cs.isEmpty then none
  else cs.foldl (fun acc c => acc.bind fun n => (digitVal? base c).map fun d => n * base + d)
    (some 0)

/-- Strip an optional leading sign; returns `(positive, rest)`. -/
def stripSign : List Char → Bool × List Char
  | '+' :: cs => (true, cs)
  | '-' :: cs => (false, cs)
  | cs => (true, cs)

/-- Value of an unsigned decimal mantissa: `digits`, `digits.digits`,
`.digits` or `digits.` (ECMAScript `StrUnsignedDecimalLiteral` without the
exponent part). -/
def mantissaVal? (cs : List Char) : Option ℚ :=
  let intPart := cs.takeWhile (fun c => c != '.')
  let rest := cs.dropWhile (fun c => c != '.')
  match rest with
  | [] => (radixVal? 10 intPart).map fun n => (n : ℚ)
  | _ :: fracPart =>
    if fracPart.contains '.' then none
    else if intPart.isEmpty && fracPart.isEmpty then none
    else do
      let i ← if intPart.isEmpty then some 0 else radixVal? 10 intPart
      let f ← if fracPart.isEmpty then some 0 else radixVal? 10 fracPart
      some ((i : ℚ) + (f : ℚ) / (10 : ℚ) ^ fracPart.length)

/-- Value of an unsigned decimal literal with optional exponent part
(`mantissa` or `mantissa e [sign] digits`). -/
def decimalVal? (cs : List Char) : Option ℚ :=
  let mantissa := cs.takeWhile (fun c => c != 'e' && c != 'E')
  let rest := cs.dropWhile (fun c => c != 'e' && c != 'E')
  match rest with
  | [] => mantissaVal? mantissa
  | _ :: expPart =>
    let signedExp := stripSign expPart
    do
      let m ← mantissaVal? mantissa
      let e ← radixVal? 10 signedExp.2
      some (m * (10 : ℚ) ^ (if signedExp.1 then (e : ℤ) else -(e : ℤ)))

/-- A signed decimal literal or `Infinity`; `NaN` when ill-formed. -/
def signedDecimalVal (cs : List Char) : JsNum :=
  let signed := stripSign cs
  if signed.2 = "Infinity".toList then .inf signed.1
  else
    match decimalVal? signed.2 with
    | some q => .finite (if signed.1 then q else -q)
    | none => .nan

/-- Strip leading and trailing whitespace from a character list (the behaviour
of `trim` restricted to ASCII whitespace; the exotic Unicode whitespace
JavaScript also strips does not occur in this code's inputs). -/
def trimChars (cs : List Char) : List Char :=
  ((cs.dropWhile Char.isWhitespace).reverse.dropWhile Char.isWhitespace).reverse

/-- Model of the JavaScript unary `+` operator applied to the characters of a
string (`ToNumber` on strings): trim whitespace, empty means `0`, then a
signed decimal literal, `Infinity`, or a `0x`/`0o`/`0b` radix literal;
anything else is `NaN`. -/
def jsCharsToNumber (cs₀ : List Char) : JsNum :=
  match trimChars cs₀ with
  | [] => .finite 0
  | '0' :: x :: rest =>
    if x = 'x' ∨ x = 'X' then
      match radixVal? 16 rest with
      | some n => .finite (n : ℚ)
      | none => .nan
    else if x = 'o' ∨ x = 'O' then
      match radixVal? 8 rest with
      | some n => .finite (n : ℚ)
      | none => .nan
    else if x = 'b' ∨ x = 'B' then
      match radixVal? 2 rest with
      | some n => .finite (n : ℚ)
      | none => .nan
    else signedDecimalVal ('0' :: x :: rest)
  | cs => signedDecimalVal cs

/-- Model of the JavaScript unary `+` operator applied to a string. -/
def jsStringToNumber (s : String) : JsNum :=
  jsCharsToNumber s.toList

/-- JavaScript truthiness of a string: every string but `""` is truthy. -/
def jsTruthyString (s : String) : Bool := !s.isEmpty

/-- JavaScript truthiness of an optional string (`undefined` and `""` are
falsy). -/
def jsTruthyOptString : Option String → Bool
  | none => false
  | some s => !s.isEmpty

/-- `String.prototype.split` with a one-character separator, on character
lists: `"".split(sep)` is `[""]`, separators at the ends produce empty
pieces. -/
def splitOnChar (sep : Char) : List Char → List (List Char)
  | [] => [[]]
  | c :: rest =>
    if c = sep then [] :: splitOnChar sep rest
    else
      match splitOnChar sep rest with
      | [] => [[c]]
      | h :: t => (c :: h) :: t

/-- `+s.split('-')[i]`: split on `'-'`, index, and convert; indexing out of
range yields `undefined`, and `+undefined` is `NaN`. -/
def jsSplitIndexToNumber (s : String) (i : Nat) : JsNum :=
  match (splitOnChar '-' s.toList)[i]? with
  | some part => jsCharsToNumber part
  | none => .nan

/-! ### Data model of the Bolt payment strategy -/

/-- `BoltEmbeddedTokenize`: the result of tokenizing the embedded field (all
fields arrive as strings from the provider SDK). -/
structure BoltEmbeddedTokenize where
  token : String
  last4 : String
  bin : String
  expiration : String
deriving DecidableEq, Repr

/-- Subtypes of `MissingDataError` observed by this strategy (including the
one thrown by the external `getCheckoutOrThrow` selector). -/
inductive MissingDataErrorType
  | missingCheckout
  | missingPaymentMethod
  | missingPayment
deriving DecidableEq, Repr

/-- Subtypes of `NotInitializedError` observed by this strategy. -/
inductive NotInitializedErrorType
  | paymentNotInitialized
deriving DecidableEq, Repr

/-- The errors this strategy can raise.  `paymentArgumentInvalid` carries the
optional list of invalid field names given to the constructor
(`_validateTokenizeResult` passes none).  `tokenizeFailure` is an `Error`
value resolved by `tokenize()` and rethrown as-is; `jsTypeError` is the
runtime `TypeError` raised by destructuring `undefined`. -/
inductive StrategyError
  | invalidArgument (message : String)
  | missingData (subtype : MissingDataErrorType)
  | notInitialized (subtype : NotInitializedErrorType)
  | paymentArgumentInvalid (invalidFields : Option (List String))
  | paymentMethodInvalid
  | paymentMethodCancelled
  | orderFinalizationNotRequired
  | tokenizeFailure (message : String)
  | jsTypeError
deriving DecidableEq, Repr

/-- The `credit_card_token` object built in `_executeWithBoltEmbedded` (the
numeric fields are results of unary `+`, hence `JsNum`). -/
structure CreditCardTokenFields where
  token : String
  last_four_digits : JsNum
  iin : JsNum
  expiration_month : JsNum
  expiration_year : JsNum
deriving DecidableEq, Repr

/-- The `provider_data` object built in `_executeWithBoltEmbedded`. -/
structure BoltProviderData where
  create_account : Bool
  embedded_checkout : Bool
deriving DecidableEq, Repr

/-- Payment data carried by the incoming `OrderRequestBody` (only the
`shouldSaveInstrument` field of the `NonceInstrument` cast is ever read). -/
structure RequestPaymentData where
  shouldSaveInstrument : Option Bool
deriving DecidableEq, Repr

/-- The `paymentData` of the payload handed to `submitPayment`, in its three
shapes: the Bolt-client path builds `{nonce, shouldSaveInstrument}`, the
embedded path builds a `formattedPayload`, and the full-checkout path spreads
the original request data and attaches a nonce. -/
inductive SubmittedPaymentData
  | nonceInstrument (nonce : String) (shouldSaveInstrument : Option Bool)
  | formattedPayload (credit_card_token : CreditCardTokenFields)
      (provider_data : BoltProviderData)
  | dataWithNonce (original : RequestPaymentData) (nonce : String)
deriving DecidableEq, Repr

/-- The payload handed to `submitPayment`. -/
structure PaymentPayload where
  methodId : String
  paymentData : SubmittedPaymentData
deriving DecidableEq, Repr

/-- The `payment` part of an `OrderRequestBody` (`methodId` is typed as a
required string; `paymentData` may be absent). -/
structure OrderPaymentRequestBody where
  methodId : String
  paymentData : Option RequestPaymentData
deriving DecidableEq, Repr

/-- `OrderRequestBody`: the input of `execute`; the remaining order fields are
passed through to `submitOrder` unexamined and are not modelled. -/
structure OrderRequestBody where
  payment : Option OrderPaymentRequestBody
deriving DecidableEq, Repr

/-- The `bolt` sub-object of the initialize options. -/
structure BoltPaymentInitializeOptions where
  useBigCommerceCheckout : Bool
  containerId : Option String
deriving DecidableEq, Repr

/-- `PaymentInitializeOptions` as read by this strategy (`methodId` may be
absent at runtime even though typed as required — the code checks it). -/
structure PaymentInitializeOptions where
  methodId : Option String
  bolt : Option BoltPaymentInitializeOptions
deriving DecidableEq, Repr

/-- `initializationData` of the Bolt payment method.  `developerConfig` is
only forwarded to the script loader and is not modelled. -/
structure BoltInitializationData where
  publishableKey : Option String
  embeddedOneClickEnabled : Bool
deriving DecidableEq, Repr

/-- `config` of a payment method (only `testMode` is read, and it is only
forwarded to the script loader). -/
structure PaymentMethodConfig where
  testMode : Option Bool
deriving DecidableEq, Repr

/-- A payment method record as read by this strategy. -/
structure PaymentMethod where
  initializationData : Option BoltInitializationData
  config : Option PaymentMethodConfig
  clientToken : Option String
deriving DecidableEq, Repr

/-- The slice of the external store state read during `initialize`:
`state.paymentMethods.getPaymentMethod`. -/
structure StoreState where
  getPaymentMethod : String → Option PaymentMethod

/-- The checkout record returned by `getCheckoutOrThrow`
(`isStoreCreditApplied` may be `undefined`, and the code tests exactly
`!== undefined`). -/
structure CheckoutState where
  isStoreCreditApplied : Option Bool
deriving DecidableEq, Repr

/-- A Bolt transaction delivered to the `success` callback. -/
structure BoltTransaction where
  reference : String
deriving DecidableEq, Repr

/-- How the hosted Bolt checkout UI resolves: the `success` callback with a
transaction, or the `close` callback. -/
inductive BoltUIOutcome
  | success (transaction : BoltTransaction)
  | close
deriving DecidableEq, Repr

/-- What `tokenize()` on the mounted embedded field resolves to: a tokenize
result or an `Error` value. -/
inductive TokenizeOutcome
  | failure (message : String)
  | result (r : BoltEmbeddedTokenize)
deriving DecidableEq, Repr

/-- Responses of the external collaborators consulted during one `execute`
call: the checkout selector after the order is submitted, the payment method
returned by the `loadPaymentMethod` dispatch, the Bolt UI callbacks, the
embedded field's `tokenize()` resolution (`none` models resolving to
`undefined`), and the full client's `getTransactionReference()`. -/
structure ExecuteEnv where
  checkoutAfterOrder : Option CheckoutState
  loadedPaymentMethod : Option PaymentMethod
  boltUIOutcome : BoltUIOutcome
  tokenizeOutcome : Option TokenizeOutcome
  transactionReference : Option String
deriving Repr

/-- The private mutable state of a `BoltPaymentStrategy` instance.  The three
SDK handles are opaque: only presence/absence is observable here. -/
structure StrategyState where
  boltClient : Option Unit
  boltEmbedded : Option Unit
  embeddedField : Option Unit
  useBoltClient : Bool
  useBoltEmbedded : Bool
deriving DecidableEq, Repr

/-- The constructor state: no handles, both flags false. -/
def initialState : StrategyState :=
  { boltClient := none, boltEmbedded := none, embeddedField := none,
    useBoltClient := false, useBoltEmbedded := false }

/-- Side effects performed by `initialize` (loader arguments are elided). -/
inductive InitEvent
  | loadBoltClient
  | loadBoltEmbedded
  | mountEmbeddedField (containerId : String)
deriving DecidableEq, Repr

/-- Actions dispatched into the store (or opened on the Bolt client) during
`execute`, in order. -/
inductive ExecEvent
  | submitOrder
  | applyStoreCredit (useStoreCredit : Bool)
  | loadPaymentMethod (methodId : String)
  | openBoltCheckout
  | submitPayment (payload : PaymentPayload)
deriving DecidableEq, Repr

/-! ### Operations of the Bolt payment strategy -/

/-- The message of the `InvalidArgumentError` thrown for a missing
`methodId`. -/
def msgMethodIdMissing : String :=
  "Unable to initialize payment because \"options.methodId\" argument is not provided."

/-- The message of the `InvalidArgumentError` thrown for a missing
`containerId`. -/
def msgContainerIdMissing : String :=
  "Unable to initialize payment because \"options.bolt.containerId\" argument is not provided."

/-- Outcome of `initialize`: the instance state after the call (assignments to
`this` made before a throw persist), the side effects performed, and the
error if one was thrown (`none` means success). -/
structure InitOutcome where
  state : StrategyState
  events : List InitEvent
  error : Option StrategyError
deriving Repr

/-- `BoltPaymentStrategy.initialize`.  Mirrors the source: check `methodId`
truthiness; if `bolt?.useBigCommerceCheckout`, look up the payment method,
require it and a truthy `publishableKey`, load the Bolt client, set the two
mode flags from `embeddedOneClickEnabled`, and in embedded mode require a
truthy `containerId`, load the embedded SDK and mount the field; otherwise
just load the Bolt client. -/
def initializeStrategy (s : StrategyState) (store : StoreState)
    (options : PaymentInitializeOptions) : InitOutcome :=
  if !jsTruthyOptString options.methodId then
    { state := s, events := [], error := some (.invalidArgument msgMethodIdMissing) }
  else
    match options.methodId with
    | none => { state := s, events := [], error := some (.invalidArgument msgMethodIdMissing) }
    | some methodId =>
      match options.bolt with
      | some bolt =>
        if bolt.useBigCommerceCheckout then
          let paymentMethod := store.getPaymentMethod methodId
          let initializationData := paymentMethod.bind (·.initializationData)
          let publishableKey := initializationData.bind (·.publishableKey)
          let embeddedOneClickEnabled :=
            (initializationData.map (·.embeddedOneClickEnabled)).getD false
          if paymentMethod.isNone || !jsTruthyOptString publishableKey then
            { state := s, events := [], error := some (.missingData .missingPaymentMethod) }
          else
            let s₁ : StrategyState :=
              { s with boltClient := some (),
                       useBoltClient := !embeddedOneClickEnabled,
                       useBoltEmbedded := embeddedOneClickEnabled }
            if s₁.useBoltEmbedded then
              if !jsTruthyOptString bolt.containerId then
                { state := s₁, events := [.loadBoltClient],
                  error := some (.invalidArgument msgContainerIdMissing) }
              else
                match bolt.containerId with
                | none =>
                  { state := s₁, events := [.loadBoltClient],
                    error := some (.invalidArgument msgContainerIdMissing) }
                | some cid =>
                  { state := { s₁ with boltEmbedded := some (), embeddedField := some () },
                    events := [.loadBoltClient, .loadBoltEmbedded, .mountEmbeddedField cid],
                    error := none }
            else
              { state := s₁, events := [.loadBoltClient], error := none }
        else
          { state := { s with boltClient := some () },
            events := [.loadBoltClient], error := none }
      | none =>
        { state := { s with boltClient := some () },
          events := [.loadBoltClient], error := none }

/-- `BoltPaymentStrategy.deinitialize`: clear both client handles; the
embedded field handle and the mode flags are untouched, and nothing can
fail (the model is a total function into the new state). -/
def deinitializeStrategy (s : StrategyState) : StrategyState :=
  { s with boltClient := none, boltEmbedded := none }

/-- `BoltPaymentStrategy.finalize`: unconditionally reject with
`OrderFinalizationNotRequiredError`. -/
def finalize (_s : StrategyState) : Except StrategyError Unit :=
  .error .orderFinalizationNotRequired

/-- `BoltPaymentStrategy._getBoltClient`: the stored handle, or a
`NotInitializedError(PaymentNotInitialized)`. -/
def getBoltClient (s : StrategyState) : Except StrategyError Unit :=
  match s.boltClient with
  | none => .error (.notInitialized .paymentNotInitialized)
  | some c => .ok c

/-- `BoltPaymentStrategy._validateTokenizeResult`: unary-plus-parse the four
numeric fields (month and year by splitting `expiration` on `'-'` at indexes
1 and 0); throw `PaymentArgumentInvalidError` — with no field list — when the
token is falsy or any parse is `NaN`.  (The source coerces `expiration` with
`'' + expiration`; on a string that is the identity.) -/
def validateTokenizeResult (tokenizeResult : BoltEmbeddedTokenize) :
    Except StrategyError Unit :=
  let lastFourDigits := jsStringToNumber tokenizeResult.last4
  let iin := jsStringToNumber tokenizeResult.bin
  let expirationMonth := jsSplitIndexToNumber tokenizeResult.expiration 1
  let expirationYear := jsSplitIndexToNumber tokenizeResult.expiration 0
  if !jsTruthyString tokenizeResult.token
      || jsIsNaN lastFourDigits
      || jsIsNaN iin
      || jsIsNaN expirationMonth
      || jsIsNaN expirationYear then
    .error (.paymentArgumentInvalid none)
  else
    .ok ()

/-- `BoltPaymentStrategy._executeWithBoltClient` ("Fraud Protection Only"):
require the client handle (before the payload check), require `payment`,
submit the order, apply store credit when the checkout carries the flag,
reload the payment method for a `clientToken`, open the hosted UI, and on
success submit a nonce payment. -/
def executeWithBoltClient (s : StrategyState) (env : ExecuteEnv)
    (payload : OrderRequestBody) :
    List ExecEvent × Except StrategyError PaymentPayload :=
  match getBoltClient s with
  | .error e => ([], .error e)
  | .ok _ =>
    match payload.payment with
    | none => ([], .error (.paymentArgumentInvalid (some ["payment"])))
    | some payment =>
      let ev₁ : List ExecEvent := [.submitOrder]
      match env.checkoutAfterOrder with
      | none => (ev₁, .error (.missingData .missingCheckout))
      | some checkout =>
        let ev₂ := ev₁ ++ (match checkout.isStoreCreditApplied with
          | some b => [ExecEvent.applyStoreCredit b]
          | none => [])
        let ev₃ := ev₂ ++ [ExecEvent.loadPaymentMethod payment.methodId]
        let clientToken := env.loadedPaymentMethod.bind (·.clientToken)
        if env.loadedPaymentMethod.isNone || !jsTruthyOptString clientToken then
          (ev₃, .error (.missingData .missingPaymentMethod))
        else
          let ev₄ := ev₃ ++ [ExecEvent.openBoltCheckout]
          match env.boltUIOutcome with
          | .close => (ev₄, .error .paymentMethodCancelled)
          | .success transaction =>
            match payment.paymentData with
            | none => (ev₄, .error .jsTypeError)
            | some paymentData =>
              let paymentPayload : PaymentPayload :=
                { methodId := payment.methodId,
                  paymentData := .nonceInstrument transaction.reference
                    paymentData.shouldSaveInstrument }
              (ev₄ ++ [ExecEvent.submitPayment paymentPayload], .ok paymentPayload)

/-- `BoltPaymentStrategy._executeWithBoltEmbedded` ("Embed One Click"):
require `payment`, tokenize through the optional-chained embedded field
(absent field means the whole expression is `undefined`), fail
`PaymentMethodInvalidError` on no result, rethrow an `Error` result,
validate, submit the order, and submit the formatted card payment. -/
def executeWithBoltEmbedded (s : StrategyState) (env : ExecuteEnv)
    (payload : OrderRequestBody) :
    List ExecEvent × Except StrategyError PaymentPayload :=
  match payload.payment with
  | none => ([], .error (.paymentArgumentInvalid (some ["payment"])))
  | some payment =>
    let tokenizeResult : Option TokenizeOutcome :=
      match s.embeddedField with
      | none => none
      | some _ => env.tokenizeOutcome
    match tokenizeResult with
    | none => ([], .error .paymentMethodInvalid)
    | some (.failure message) => ([], .error (.tokenizeFailure message))
    | some (.result r) =>
      match validateTokenizeResult r with
      | .error e => ([], .error e)
      | .ok _ =>
        let paymentPayload : PaymentPayload :=
          { methodId := payment.methodId,
            paymentData := .formattedPayload
              { token := r.token,
                last_four_digits := jsStringToNumber r.last4,
                iin := jsStringToNumber r.bin,
                expiration_month := jsSplitIndexToNumber r.expiration 1,
                expiration_year := jsSplitIndexToNumber r.expiration 0 }
              { create_account := false, embedded_checkout := true } }
        ([.submitOrder, .submitPayment paymentPayload], .ok paymentPayload)

/-- `BoltPaymentStrategy._executeWithBoltFullCheckout` ("Full Checkout with
Fraud Protection"): require the client handle (before the payload checks),
require `payment`, a truthy `payment.methodId` and a present
`payment.paymentData` (distinct missing-data subtypes), submit the order,
require a truthy transaction reference, and submit the original payment data
with the reference as nonce. -/
def executeWithBoltFullCheckout (s : StrategyState) (env : ExecuteEnv)
    (payload : OrderRequestBody) :
    List ExecEvent × Except StrategyError PaymentPayload :=
  match getBoltClient s with
  | .error e => ([], .error e)
  | .ok _ =>
    match payload.payment with
    | none => ([], .error (.paymentArgumentInvalid (some ["payment"])))
    | some payment =>
      if !jsTruthyString payment.methodId then
        ([], .error (.missingData .missingPaymentMethod))
      else
        match payment.paymentData with
        | none => ([], .error (.missingData .missingPayment))
        | some paymentData =>
          let ev₁ : List ExecEvent := [.submitOrder]
          if !jsTruthyOptString env.transactionReference then
            (ev₁, .error .paymentMethodInvalid)
          else
            match env.transactionReference with
            | none => (ev₁, .error .paymentMethodInvalid)
            | some reference =>
              let paymentPayload : PaymentPayload :=
                { methodId := payment.methodId,
                  paymentData := .dataWithNonce paymentData reference }
              (ev₁ ++ [ExecEvent.submitPayment paymentPayload], .ok paymentPayload)

/-- Outcome of `execute`: the instance state after the call, the dispatched
actions in order, and the result. -/
structure ExecOutcome where
  state : StrategyState
  events : List ExecEvent
  result : Except StrategyError PaymentPayload
deriving Repr

/-- `BoltPaymentStrategy.execute`: dispatch on the mode flags set during
`initialize`.  No handler assigns any instance field, so the state component
is the input state. -/
def execute (s : StrategyState) (env : ExecuteEnv) (payload : OrderRequestBody) :
    ExecOutcome :=
  if s.useBoltClient then
    { state := s, events := (executeWithBoltClient s env payload).1,
      result := (executeWithBoltClient s env payload).2 }
  else if s.useBoltEmbedded then
    { state := s, events := (executeWithBoltEmbedded s env payload).1,
      result := (executeWithBoltEmbedded s env payload).2 }
  else
    { state := s, events := (executeWithBoltFullCheckout s env payload).1,
      result := (executeWithBoltFullCheckout s env payload).2 }

/-! ### The shipping-address mock module -/

/-- `InternalAddress` as populated by the mock (the element type of
`customFields` is immaterial: the mock returns the empty list). -/
structure InternalAddress where
  id : String
  firstName : String
  lastName : String
  company : String
  addressLine1 : String
  addressLine2 : String
  city : String
  province : String
  provinceCode : String
  postCode : String
  country : String
  countryCode : String
  phone : String
  customFields : List String
deriving DecidableEq, Repr

/-- `getShippingAddress` from `internal-shipping-addresses.mock.ts`: a pure
function returning a fixed record, so every call returns an equal value. -/
def getShippingAddress : InternalAddress :=
  { id := "55c96cda6f04c",
    firstName := "Test",
    lastName := "Tester",
    company := "Bigcommerce",
    addressLine1 := "12345 Testing Way",
    addressLine2 := "",
    city := "Some City",
    province := "California",
    provinceCode := "CA",
    postCode := "95555",
    country := "United States",
    countryCode := "US",
    phone := "555-555-5555",
    customFields := [] }

/-! ### Spec-side definitions used by refinement-style claims -/

/-- Modelled from the spec's words for the validity of a tokenize result ("the
result is valid exactly when its token is non-empty AND its last-four-digits,
bank-identifier number, expiration month, and expiration year — the latter
two obtained by splitting the expiration string on `'-'` and taking index 1
and 0 respectively — all parse as valid numbers"); to be compared with
`validateTokenizeResult`, which is translated from the source. -/
def tokenizeResultValid (r : BoltEmbeddedTokenize) : Bool :=
  !r.token.isEmpty
    && !jsIsNaN (jsStringToNumber r.last4)
    && !jsIsNaN (jsStringToNumber r.bin)
    && !jsIsNaN (jsSplitIndexToNumber r.expiration 1)
    && !jsIsNaN (jsSplitIndexToNumber r.expiration 0)

/-- The `useBigCommerceCheckout` condition tested by `initialize`
(`bolt?.useBigCommerceCheckout`, with `undefined` falsy). -/
def requestsBigCommerceCheckout (options : PaymentInitializeOptions) : Bool :=
  (options.bolt.map (·.useBigCommerceCheckout)).getD false

/-- The `embeddedOneClickEnabled` flag as `initialize` reads it from the
store for a given method id (falsy when the method or its initialization
data is absent). -/
def storeEmbeddedOneClick (store : StoreState) (methodId : String) : Bool :=
  (((store.getPaymentMethod methodId).bind (·.initializationData)).map
    (·.embeddedOneClickEnabled)).getD false

/-! ### Concrete fixtures used by the witnesses -/

/-- A store that knows no payment method. -/
def emptyStore : StoreState := { getPaymentMethod := fun _ => none }

/-- A store whose every method is a Bolt method with a publishable key and
`embeddedOneClickEnabled` set. -/
def boltStore : StoreState :=
  { getPaymentMethod := fun _ =>
      some { initializationData :=
               some { publishableKey := some "pk", embeddedOneClickEnabled := true },
             config := some { testMode := some false },
             clientToken := none } }

/-- Initialize options requesting the platform-checkout integration with a
container. -/
def boltOptions : PaymentInitializeOptions :=
  { methodId := some "bolt",
    bolt := some { useBigCommerceCheckout := true, containerId := some "bolt-container" } }

/-- An arbitrary execute environment. -/
def sampleEnv : ExecuteEnv :=
  { checkoutAfterOrder := some { isStoreCreditApplied := none },
    loadedPaymentMethod := none,
    boltUIOutcome := .close,
    tokenizeOutcome := none,
    transactionReference := none }

/-- An execute payload with no `payment` field. -/
def noPaymentRequest : OrderRequestBody := { payment := none }

/-- An execute payload with a `payment` field. -/
def samplePayment : OrderPaymentRequestBody :=
  { methodId := "bolt", paymentData := some { shouldSaveInstrument := none } }

/-- The request carrying `samplePayment`. -/
def sampleRequest : OrderRequestBody := { payment := some samplePayment }

/-- The state after a successful client-only `initialize`. -/
def clientModeState : StrategyState :=
  { boltClient := some (), boltEmbedded := none, embeddedField := none,
    useBoltClient := true, useBoltEmbedded := false }

/-- The state after a successful embedded `initialize`. -/
def embeddedModeState : StrategyState :=
  { boltClient := some (), boltEmbedded := some (), embeddedField := some (),
    useBoltClient := false, useBoltEmbedded := true }

/-- An embedded-mode state whose embedded field handle is absent. -/
def embeddedModeNoFieldState : StrategyState :=
  { boltClient := some (), boltEmbedded := none, embeddedField := none,
    useBoltClient := false, useBoltEmbedded := true }

/-- A client-mode state whose Bolt client handle is absent. -/
def clientModeNoClientState : StrategyState :=
  { boltClient := none, boltEmbedded := none, embeddedField := none,
    useBoltClient := true, useBoltEmbedded := false }

/-- The tokenize result named by the spec's embedded-path example. -/
def c4TokenizeResult : BoltEmbeddedTokenize :=
  { token := "tok_1", last4 := "4242", bin := "411111", expiration := "2025-09" }

/-- An environment whose embedded field tokenizes to `c4TokenizeResult`. -/
def c4Env : ExecuteEnv :=
  { sampleEnv with tokenizeOutcome := some (.result c4TokenizeResult) }

/-- The `credit_card_token` fields the spec's example expects. -/
def c4ExpectedCardFields : CreditCardTokenFields :=
  { token := "tok_1", last_four_digits := .finite 4242, iin := .finite 411111,
    expiration_month := .finite 9, expiration_year := .finite 2025 }

end CheckoutSdk

namespace CheckoutSdk

/-! ### Helper lemmas -/

/-- `execute` never assigns an instance field: the outcome's state component
is the input state, whichever handler runs. -/
theorem execute_state_eq (s : StrategyState) (env : ExecuteEnv)
    (payload : OrderRequestBody) : (execute s env payload).state = s := by
  unfold execute
  split
  · rfl
  · split
    · rfl
    · rfl

/-! ### The claims -/

/-- C2: `_validateTokenizeResult` raises the argument-invalid error carrying
no field list if and only if the result is invalid — where validity is the
spec-side predicate `tokenizeResultValid` (non-empty token and the four
numeric fields, month and year taken from splitting the expiration on `'-'`
at indexes 1 and 0, all parse as valid numbers) — and on a valid result it
raises nothing. -/
theorem C2_validate_tokenize_result (r : BoltEmbeddedTokenize) :
    validateTokenizeResult r =
      (if tokenizeResultValid r then Except.ok ()
       else Except.error (StrategyError.paymentArgumentInvalid none)) := by
  unfold validateTokenizeResult tokenizeResultValid jsTruthyString
  cases h₁ : jsIsNaN (jsStringToNumber r.last4) <;>
    cases h₂ : jsIsNaN (jsStringToNumber r.bin) <;>
    cases h₃ : jsIsNaN (jsSplitIndexToNumber r.expiration 1) <;>
    cases h₄ : jsIsNaN (jsSplitIndexToNumber r.expiration 0) <;>
    cases h₅ : r.token.isEmpty <;>
    simp [h₁, h₂, h₃, h₄, h₅]

/-- C5: `initialize` on options with no `methodId` fails with the
invalid-argument error before any side effect — the instance state is
unchanged and nothing is loaded or mounted — regardless of the other
configuration flags (store and the rest of the options are universally
quantified). -/
theorem C5_missing_method_id (s : StrategyState) (store : StoreState)
    (options : PaymentInitializeOptions) (h : options.methodId = none) :
    initializeStrategy s store options =
      { state := s, events := [],
        error := some (.invalidArgument msgMethodIdMissing) } := by
  unfold initializeStrategy
  rw [h]
  rfl

/-- Witness for C5 at a concrete input. -/
theorem C5_missing_method_id_witness :
    initializeStrategy initialState emptyStore { methodId := none, bolt := none } =
      { state := initialState, events := [],
        error := some (.invalidArgument msgMethodIdMissing) } :=
  C5_missing_method_id initialState emptyStore { methodId := none, bolt := none } rfl

/-- C6: `deinitialize`, from every strategy state, clears both client
handles, leaves the embedded field handle (and the mode flags) unchanged,
and is idempotent.  It never fails: the embedding is a total function into
the new state, mirroring the source, which contains no throw. -/
theorem C6_deinit_behaviour (s : StrategyState) :
    (deinitializeStrategy s).boltClient = none
    ∧ (deinitializeStrategy s).boltEmbedded = none
    ∧ (deinitializeStrategy s).embeddedField = s.embeddedField
    ∧ (deinitializeStrategy s).useBoltClient = s.useBoltClient
    ∧ (deinitializeStrategy s).useBoltEmbedded = s.useBoltEmbedded
    ∧ deinitializeStrategy (deinitializeStrategy s) = deinitializeStrategy s :=
  ⟨rfl, rfl, rfl, rfl, rfl, rfl⟩

/-- C7: `finalize` always fails with the order-finalization-not-required
error, for every strategy state, independent of any prior calls (the source
method reads no state at all). -/
theorem C7_finalize_always_fails (s : StrategyState) :
    finalize s = .error .orderFinalizationNotRequired := rfl

/-- C8: the mock `getShippingAddress` is a pure constant — every call returns
this same record — fully populated (every other field non-empty, custom
fields the fixed empty list) with `countryCode = "US"` and an empty
`addressLine2`. -/
theorem C8_shipping_address_fixture :
    getShippingAddress.countryCode = "US"
    ∧ getShippingAddress.addressLine2 = ""
    ∧ getShippingAddress.id ≠ ""
    ∧ getShippingAddress.firstName ≠ ""
    ∧ getShippingAddress.lastName ≠ ""
    ∧ getShippingAddress.company ≠ ""
    ∧ getShippingAddress.addressLine1 ≠ ""
    ∧ getShippingAddress.city ≠ ""
    ∧ getShippingAddress.province ≠ ""
    ∧ getShippingAddress.provinceCode ≠ ""
    ∧ getShippingAddress.postCode ≠ ""
    ∧ getShippingAddress.country ≠ ""
    ∧ getShippingAddress.phone ≠ ""
    ∧ getShippingAddress.customFields = [] := by
  refine ⟨rfl, rfl, ?_, ?_, ?_, ?_, ?_, ?_, ?_, ?_, ?_, ?_, ?_, rfl⟩ <;> decide

/-- C3: in each of the three modes — with the Bolt client handle present, as
a successful `initialize` always leaves it in every mode — `execute` on a
payload with no `payment` field fails with the argument-invalid error naming
the missing field `payment`, and the dispatched-action trace is empty, i.e.
no order or payment submission occurred. -/
theorem C3_execute_missing_payment (s : StrategyState) (env : ExecuteEnv)
    (payload : OrderRequestBody) (hpay : payload.payment = none)
    (hclient : s.boltClient = some ()) :
    (execute s env payload).result
      = .error (.paymentArgumentInvalid (some ["payment"]))
    ∧ (execute s env payload).events = [] := by
  cases hc : s.useBoltClient <;> cases he : s.useBoltEmbedded <;>
    simp [execute, executeWithBoltClient, executeWithBoltEmbedded,
      executeWithBoltFullCheckout, getBoltClient, hpay, hclient, hc, he]

/-- Witness for C3 at a concrete input (client-only mode, no `payment`). -/
theorem C3_execute_missing_payment_witness :
    (execute clientModeState sampleEnv noPaymentRequest).result
      = .error (.paymentArgumentInvalid (some ["payment"])) :=
  (C3_execute_missing_payment clientModeState sampleEnv noPaymentRequest rfl rfl).1

/-- C9: in the Bolt-client-only and full-checkout paths the not-initialized
check precedes payload validation — for every payload, including one with no
`payment` field, an absent client handle makes `execute` fail with
`NotInitializedError(PaymentNotInitialized)` (so not with an argument-invalid
error), before anything is dispatched. -/
theorem C9_not_initialized_first (s : StrategyState) (env : ExecuteEnv)
    (payload : OrderRequestBody) (hclient : s.boltClient = none)
    (hmode : s.useBoltClient = true ∨ s.useBoltEmbedded = false) :
    (execute s env payload).result
      = .error (.notInitialized .paymentNotInitialized)
    ∧ (execute s env payload).events = [] := by
  rcases hmode with h | h
  · simp [execute, executeWithBoltClient, getBoltClient, h, hclient]
  · cases hc : s.useBoltClient
    · simp [execute, executeWithBoltFullCheckout, getBoltClient, h, hc, hclient]
    · simp [execute, executeWithBoltClient, getBoltClient, hc, hclient]

/-- Witness for C9 at a concrete input (client-only mode, client handle
absent, and a payload that even lacks `payment`). -/
theorem C9_not_initialized_first_witness :
    (execute clientModeNoClientState sampleEnv noPaymentRequest).result
      = .error (.notInitialized .paymentNotInitialized) :=
  (C9_not_initialized_first clientModeNoClientState sampleEnv noPaymentRequest
    rfl (Or.inl rfl)).1

/-- C10: in embedded mode `execute` performs no initialization check: with
the embedded field handle absent and `payment` present, tokenization is
skipped by the optional chaining, no result arrives, and the call fails with
`PaymentMethodInvalidError` — not a not-initialized error — with an empty
dispatch trace (so before any order submission); with `payment` absent the
payment-presence check still fires first.  The last conjuncts record the
facts the claim's aside cites: `deinitialize` resets neither the mode flags
nor the embedded field handle. -/
theorem C10_embedded_field_absent (s : StrategyState) (env : ExecuteEnv)
    (payload : OrderRequestBody) (payment : OrderPaymentRequestBody)
    (hmode₁ : s.useBoltClient = false) (hmode₂ : s.useBoltEmbedded = true)
    (hfield : s.embeddedField = none) (hpay : payload.payment = some payment) :
    ((execute s env payload).result = .error .paymentMethodInvalid
      ∧ (execute s env payload).events = [])
    ∧ (execute s env { payment := none }).result
        = .error (.paymentArgumentInvalid (some ["payment"]))
    ∧ (deinitializeStrategy s).useBoltClient = s.useBoltClient
    ∧ (deinitializeStrategy s).useBoltEmbedded = s.useBoltEmbedded
    ∧ (deinitializeStrategy s).embeddedField = s.embeddedField := by
  refine ⟨?_, ?_, rfl, rfl, rfl⟩ <;>
    simp [execute, executeWithBoltEmbedded, hmode₁, hmode₂, hfield, hpay]

/-- Witness for C10 at a concrete input. -/
theorem C10_embedded_field_absent_witness :
    (execute embeddedModeNoFieldState sampleEnv sampleRequest).result
      = .error .paymentMethodInvalid :=
  (C10_embedded_field_absent embeddedModeNoFieldState sampleEnv sampleRequest
    samplePayment rfl rfl rfl rfl).1.1

/-- C4: in embedded mode, the spec's example tokenize result
`{token := "tok_1", last4 := "4242", bin := "411111", expiration := "2025-09"}`
makes `execute` submit the order and then submit a payment whose
`credit_card_token` carries `last_four_digits = 4242`, `iin = 411111`,
`expiration_month = 9`, `expiration_year = 2025`, with provider-data flags
`create_account = false` and `embedded_checkout = true`. -/
theorem C4_embedded_example_payload (s : StrategyState) (env : ExecuteEnv)
    (payload : OrderRequestBody) (payment : OrderPaymentRequestBody)
    (hmode₁ : s.useBoltClient = false) (hmode₂ : s.useBoltEmbedded = true)
    (hfield : s.embeddedField = some ()) (hpay : payload.payment = some payment)
    (htok : env.tokenizeOutcome = some (.result c4TokenizeResult)) :
    (execute s env payload).result
      = .ok { methodId := payment.methodId,
              paymentData := .formattedPayload c4ExpectedCardFields
                { create_account := false, embedded_checkout := true } }
    ∧ (execute s env payload).events
      = [.submitOrder,
         .submitPayment
           { methodId := payment.methodId,
             paymentData := .formattedPayload c4ExpectedCardFields
               { create_account := false, embedded_checkout := true } }] := by
  have hval : validateTokenizeResult
      { token := "tok_1", last4 := "4242", bin := "411111", expiration := "2025-09" }
      = Except.ok () := rfl
  have hlast : jsStringToNumber "4242" = JsNum.finite 4242 := by decide
  have hbin : jsStringToNumber "411111" = JsNum.finite 411111 := by decide
  have hmon : jsSplitIndexToNumber "2025-09" 1 = JsNum.finite 9 := by decide
  have hyear : jsSplitIndexToNumber "2025-09" 0 = JsNum.finite 2025 := by decide
  refine ⟨?_, ?_⟩ <;>
    simp [execute, executeWithBoltEmbedded, hmode₁, hmode₂, hfield, hpay, htok,
      hval, c4TokenizeResult, c4ExpectedCardFields, hlast, hbin, hmon, hyear]

/-- Witness for C4 at a concrete input. -/
theorem C4_embedded_example_payload_witness :
    (execute embeddedModeState c4Env sampleRequest).result
      = .ok { methodId := samplePayment.methodId,
              paymentData := .formattedPayload c4ExpectedCardFields
                { create_account := false, embedded_checkout := true } } :=
  (C4_embedded_example_payload embeddedModeState c4Env sampleRequest samplePayment
    rfl rfl rfl rfl rfl).1

/-- C1: after a successful `initialize` from the constructor state, at most
one of `_useBoltClient` / `_useBoltEmbedded` is true; the selection is the
deterministic function of the two configuration flags — when
`useBigCommerceCheckout` is requested the flags are exactly
`(¬embeddedOneClickEnabled, embeddedOneClickEnabled)` (so exactly one is
true), and otherwise both are false; and no call to `execute` changes either
flag. -/
theorem C1_mode_selection (store : StoreState) (options : PaymentInitializeOptions)
    (out : InitOutcome)
    (hinit : initializeStrategy initialState store options = out)
    (hok : out.error = none) :
    ¬(out.state.useBoltClient = true ∧ out.state.useBoltEmbedded = true)
    ∧ (∀ methodId, options.methodId = some methodId →
        (requestsBigCommerceCheckout options = true →
          out.state.useBoltClient = !storeEmbeddedOneClick store methodId
          ∧ out.state.useBoltEmbedded = storeEmbeddedOneClick store methodId)
        ∧ (requestsBigCommerceCheckout options = false →
          out.state.useBoltClient = false ∧ out.state.useBoltEmbedded = false))
    ∧ (∀ env payload,
        (execute out.state env payload).state.useBoltClient
          = out.state.useBoltClient
        ∧ (execute out.state env payload).state.useBoltEmbedded
          = out.state.useBoltEmbedded) := by
  subst hinit
  have hflags :
      (initializeStrategy initialState store options).state.useBoltClient
        = (requestsBigCommerceCheckout options
            && !storeEmbeddedOneClick store (options.methodId.getD ""))
      ∧ (initializeStrategy initialState store options).state.useBoltEmbedded
        = (requestsBigCommerceCheckout options
            && storeEmbeddedOneClick store (options.methodId.getD "")) := by
    cases hmid : options.methodId with
    | none => simp [initializeStrategy, hmid, jsTruthyOptString] at hok
    | some mid =>
      cases hemp : mid.isEmpty
      · cases hbolt : options.bolt with
        | none =>
          simp [initializeStrategy, requestsBigCommerceCheckout, hmid, hemp, hbolt,
            jsTruthyOptString, initialState]
        | some bolt =>
          cases hflag : bolt.useBigCommerceCheckout
          · simp [initializeStrategy, requestsBigCommerceCheckout, hmid, hemp, hbolt,
              hflag, jsTruthyOptString, initialState]
          · cases hpm : store.getPaymentMethod mid with
            | none =>
              simp [initializeStrategy, hmid, hemp, hbolt, hflag, hpm,
                jsTruthyOptString, initialState] at hok
            | some pm =>
              cases hdata : pm.initializationData with
              | none =>
                simp [initializeStrategy, hmid, hemp, hbolt, hflag, hpm, hdata,
                  jsTruthyOptString, initialState] at hok
              | some d =>
                cases hkey : d.publishableKey with
                | none =>
                  simp [initializeStrategy, hmid, hemp, hbolt, hflag, hpm, hdata,
                    hkey, jsTruthyOptString, initialState] at hok
                | some key =>
                  cases hkemp : key.isEmpty
                  · cases hemb : d.embeddedOneClickEnabled
                    · simp [initializeStrategy, requestsBigCommerceCheckout,
                        storeEmbeddedOneClick, hmid, hemp, hbolt, hflag, hpm, hdata,
                        hkey, hkemp, hemb, jsTruthyOptString, initialState]
                    · cases hcid : bolt.containerId with
                      | none =>
                        simp [initializeStrategy, hmid, hemp, hbolt, hflag, hpm,
                          hdata, hkey, hkemp, hemb, hcid, jsTruthyOptString,
                          initialState] at hok
                      | some cid =>
                        cases hcemp : cid.isEmpty
                        · simp [initializeStrategy, requestsBigCommerceCheckout,
                            storeEmbeddedOneClick, hmid, hemp, hbolt, hflag, hpm,
                            hdata, hkey, hkemp, hemb, hcid, hcemp,
                            jsTruthyOptString, initialState]
                        · simp [initializeStrategy, hmid, hemp, hbolt, hflag, hpm,
                            hdata, hkey, hkemp, hemb, hcid, hcemp,
                            jsTruthyOptString, initialState] at hok
                  · simp [initializeStrategy, hmid, hemp, hbolt, hflag, hpm, hdata,
                      hkey, hkemp, jsTruthyOptString, initialState] at hok
      · simp [initializeStrategy, hmid, hemp, jsTruthyOptString] at hok
  refine ⟨?_, ?_, fun env payload => by rw [execute_state_eq]; exact ⟨rfl, rfl⟩⟩
  · rw [hflags.1, hflags.2]
    cases requestsBigCommerceCheckout options <;>
      cases storeEmbeddedOneClick store (options.methodId.getD "") <;> simp
  · intro m hm
    rw [hflags.1, hflags.2, hm]
    constructor
    · intro hbigT
      rw [hbigT]
      simp
    · intro hbigF
      rw [hbigF]
      simp

/-- Witness for C1 at a concrete input: platform checkout with
`embeddedOneClickEnabled` set selects exactly the embedded flag, and
`execute` leaves it unchanged. -/
theorem C1_mode_selection_witness :
    (initializeStrategy initialState boltStore boltOptions).state.useBoltClient = false
    ∧ (initializeStrategy initialState boltStore boltOptions).state.useBoltEmbedded
        = true
    ∧ (execute (initializeStrategy initialState boltStore boltOptions).state
        sampleEnv noPaymentRequest).state.useBoltEmbedded = true := by
  have h := C1_mode_selection boltStore boltOptions
    (initializeStrategy initialState boltStore boltOptions) rfl rfl
  have h2 := (h.2.1 "bolt" rfl).1 rfl
  have h3 := (h.2.2 sampleEnv noPaymentRequest).2
  refine ⟨?_, ?_, ?_⟩
  · rw [h2.1]; rfl
  · rw [h2.2]; rfl
  · rw [h3, h2.2]; rfl

end CheckoutSdk
